import Mathlib

/-!
Verification of the database-webos SQL convenience layer.

This file gives a shallow embedding of the repository source
(src/javascripts/database-standalone.js, the standalone variant, and
src/unnamed/part_001, the Enyo variant) and settles the frozen claims
about it.

Modelling conventions:
- JavaScript objects used as ordered string-keyed mappings (row data and
  WHERE predicates) are modelled as association lists; the list order is
  the key iteration order of a JS for-in loop over a plain object, which
  is insertion order for non-index string keys.
- Scalar values bound as SQL parameters are the Value type below.
- JS string operations used by the source (substr, lastIndexOf, join,
  trim via the regex replace) are modelled by small named functions that
  mirror their JS semantics exactly.
- Reading an undeclared identifier in JS throws a ReferenceError; calling
  a non-function throws a TypeError.  Fallible paths are modelled with
  Except JsError.
-/

namespace DatabaseWebos

/-- Scalar value of a row mapping or predicate: string, number, or null. -/
inductive Value where
  | str (s : String)
  | int (n : Int)
  | null
deriving DecidableEq

/-- Row data / predicate mapping: ordered association list of column name
and value, in JS key iteration order. -/
abbrev Row := List (String × Value)

/-- DatabaseQuery object from the source: plain record holding the SQL text
and the positional parameter values. -/
structure DatabaseQuery where
  sql : String
  values : List Value
deriving DecidableEq

/-- JS runtime error raised by the source code paths modelled here. -/
inductive JsError where
  | referenceError (name : String)
  | typeError (msg : String)
deriving DecidableEq

/-- JS Array.prototype.join with the given separator. -/
def jsJoin (sep : String) : List String → String
  | [] => ""
  | [s] => s
  | s :: rest => s ++ sep ++ jsJoin sep rest

/-- Concatenation of a list of strings, in order. -/
def concatAll : List String → String
  | [] => ""
  | s :: rest => s ++ concatAll rest

/-- JS String.prototype.substr(0, n): the first n characters, empty when n
is not positive. -/
def jsSubstr0 (s : String) (n : Int) : String :=
  String.mk (s.data.take n.toNat)

/-- Number of question-mark characters in a string; the textual
placeholder count of an SQL text. -/
def countQ (s : String) : Nat :=
  s.data.count '?'

/-- Last character of a string, if any. -/
def lastChar (s : String) : Option Char :=
  s.data.getLast?

/-- JS String.prototype.lastIndexOf for a single character: the largest
index holding the character, or -1 when absent. -/
def jsLastIndexOf (s : String) (c : Char) : Int :=
  match s.data.reverse.indexOf c with
  | r => if r = s.data.length then -1 else (s.data.length : Int) - 1 - r

/-- JS whitespace trim of both ends, modelling the replace of
leading and trailing whitespace runs with the empty string. -/
def jsTrim (s : String) : String :=
  String.mk (((s.data.dropWhile Char.isWhitespace).reverse.dropWhile Char.isWhitespace).reverse)

/-- Database.prototype.getInsert from the source: builds
INSERT INTO table (k1, k2, ...) VALUES (?, ?, ...) by appending
key-comma and question-mark-comma pieces in a loop over the mapping, then
chopping the two trailing characters of each accumulator and closing the
parentheses.  The values array collects the mapping values in iteration
order. -/
def getInsert (tableName : String) (data : Row) : DatabaseQuery :=
  let sql0 := "INSERT INTO " ++ tableName ++ " ("
  let valueString0 := " VALUES ("
  let colValues := data.map (fun kv => kv.2)
  let sql1 := data.foldl (fun s kv => s ++ kv.1 ++ ", ") sql0
  let valueString1 := data.foldl (fun s _ => s ++ "?" ++ ", ") valueString0
  let sql2 := jsSubstr0 sql1 ((sql1.length : Int) - 2) ++ ")"
  let valueString2 := jsSubstr0 valueString1 ((valueString1.length : Int) - 2) ++ ")"
  { sql := sql2 ++ valueString2, values := colValues }

/-- Columns argument of getSelect, covering the JS values the source
dispatches on: undefined, null, a string, or an array of column names. -/
inductive JsColumns where
  | undef
  | nullv
  | str (s : String)
  | arr (l : List String)
deriving DecidableEq

/-- Database getSelect as in src/unnamed/part_001 (the Enyo variant, whose
isArray test is a genuine array check; the standalone variant instead
raises a ReferenceError inside _isArray for any columns value that is
neither null nor the empty string).  Null or empty-string columns render
the star; an array renders the names joined with comma-space (copy loop
then join); any other value leaves the initial empty column string.  A
missing WHERE argument leaves the hoisted sqlValues undefined, and the
DatabaseQuery constructor then defaults values to the empty array. -/
def getSelect (tableName : String) (columns : JsColumns) (whereArg : Option Row) : DatabaseQuery :=
  let colStr :=
    match columns with
    | JsColumns.nullv => "*"
    | JsColumns.str s => if s = "" then "*" else ""
    | JsColumns.arr l => jsJoin ", " l
    | JsColumns.undef => ""
  let sql := "SELECT " ++ colStr ++ " FROM " ++ tableName
  match whereArg with
  | none => { sql := sql, values := [] }
  | some w =>
      let sqlValues := w.map (fun kv => kv.2)
      let whereStrings := w.map (fun kv => kv.1 ++ " = ?")
      { sql := sql ++ " WHERE " ++ jsJoin " AND " whereStrings, values := sqlValues }

/-- Database.prototype.getUpdate from the source: SET pieces from the data
mapping in iteration order, then WHERE pieces from the predicate mapping,
each rendered as name-equals-placeholder; values are data values followed
by predicate values. -/
def getUpdate (tableName : String) (data : Row) (whereArg : Row) : DatabaseQuery :=
  let sqlStrings := data.map (fun kv => kv.1 ++ " = ?")
  let sqlValues := data.map (fun kv => kv.2)
  let sql := "UPDATE " ++ tableName ++ " SET " ++ jsJoin ", " sqlStrings ++ " WHERE "
  let whereStrings := whereArg.map (fun kv => kv.1 ++ " = ?")
  { sql := sql ++ jsJoin " AND " whereStrings,
    values := sqlValues ++ whereArg.map (fun kv => kv.2) }

/-- Database.prototype.getDelete from the source: WHERE pieces from the
predicate mapping in iteration order. -/
def getDelete (tableName : String) (whereArg : Row) : DatabaseQuery :=
  let sqlValues := whereArg.map (fun kv => kv.2)
  let whereStrings := whereArg.map (fun kv => kv.1 ++ " = ?")
  { sql := "DELETE FROM " ++ tableName ++ " WHERE " ++ jsJoin " AND " whereStrings,
    values := sqlValues }

/-- Column definition from the schema format: name, type, and the
optional constraints array.  The source tests truthiness of the
constraints property, and an empty JS array is truthy, so presence of an
empty list is distinguished from absence. -/
structure ColumnDef where
  column : String
  type : String
  constraints : Option (List String)
deriving DecidableEq

/-- String for one column definition inside getCreateTable: name, space,
type, and when the constraints property is truthy a space and the
constraints joined with single spaces. -/
def colDefString (col : ColumnDef) : String :=
  let colDef := col.column ++ " " ++ col.type
  match col.constraints with
  | some cs => colDef ++ " " ++ jsJoin " " cs
  | none => colDef

/-- Database.prototype.getCreateTable from the source.  The third JS
argument defaults to true when undefined, modelled with Option Bool. -/
def getCreateTable (tableName : String) (columns : List ColumnDef) (ifNotExists : Option Bool) : String :=
  let ifNotExistsB := match ifNotExists with
    | some b => b
    | none => true
  let sql := "CREATE TABLE " ++ (if ifNotExistsB then "IF NOT EXISTS " else "")
  let colStr := columns.map colDefString
  sql ++ tableName ++ " (" ++ jsJoin ", " colStr ++ ")"

/-- Database.prototype.getDropTable from the source. -/
def getDropTable (tableName : String) : String :=
  "DROP TABLE IF EXISTS " ++ tableName

/-- SQL normalization performed by Database.prototype.query before
execution: trim surrounding whitespace, then append a semicolon unless the
last index of a semicolon is already the final position. -/
def queryNormalizeSql (sql0 : String) : String :=
  let sql := jsTrim sql0
  if jsLastIndexOf sql ';' ≠ (sql.length : Int) - 1 then sql ++ ";" else sql

/-- Host connection object returned by openDatabase, as far as the claims
need it: whether close() has been called on it. -/
structure HostConn where
  closed : Bool
deriving DecidableEq

/-- Instance state of the Database class: the _db property (none models a
falsy value, which only an open failure could produce) and the cached
_dbVersion (none models the JS undefined value). -/
structure DbState where
  db : Option HostConn
  dbVersion : Option String
deriving DecidableEq

/-- Database.prototype.getVersion: returns the cached version without
touching the host. -/
def getVersion (st : DbState) : Option String :=
  st.dbVersion

/-- Database.prototype.close: calls close() on the host connection object
held in _db.  The _db property itself is left set; only the host-side
connection is closed.  Calling it with _db unset would throw a TypeError
in JS. -/
def close (st : DbState) : Except JsError DbState :=
  match st.db with
  | none => Except.error (JsError.typeError "cannot call close of undefined")
  | some conn => Except.ok { st with db := some { conn with closed := true } }

/-- Outcome of Database.prototype.query: either the fail-fast _db_lost
error (thrown only when _db is falsy) or a dispatch of the normalized SQL
to the host transaction, recording whether the host connection had been
closed. -/
inductive QueryDispatch where
  | dbLostError
  | hostTransaction (connClosed : Bool) (sql : String) (values : List Value)
deriving DecidableEq

/-- Database.prototype.query from the source, at the granularity the
claims need: guard on _db, normalize the SQL, then hand the statement to
the host transaction on the connection object held in _db (closed or
not).  Options merging and result formatting are host-callback plumbing
and are not modelled. -/
def query (st : DbState) (sql : String) (values : List Value) : QueryDispatch :=
  match st.db with
  | none => QueryDispatch.dbLostError
  | some conn => QueryDispatch.hostTransaction conn.closed (queryNormalizeSql sql) values

/-- Database.prototype.changeVersion from the source: invokes the host
version-change primitive with an empty upgrade body and callbacks that
only emit debug logging, then unconditionally sets the cached _dbVersion
to the new version.  The host outcome parameter records what the host
reports; the source ignores it for state purposes. -/
def changeVersion (st : DbState) (newVersion : String) (hostReportsSuccess : Bool) : DbState :=
  { st with dbVersion := some newVersion }

/-- Query argument accepted by Database.prototype.queries: a raw SQL
string or a DatabaseQuery object. -/
inductive QueryItem where
  | raw (sql : String)
  | query (q : DatabaseQuery)
deriving DecidableEq

/-- Table entry of the schema format: table name, optional columns array,
optional inline data rows. -/
structure TableDef where
  table : String
  columns : Option (List ColumnDef)
  data : Option (List Row)
deriving DecidableEq

/-- Item of a schema plan: a raw SQL string or a table definition. -/
inductive SchemaItem where
  | rawSql (sql : String)
  | table (t : TableDef)
deriving DecidableEq

namespace Standalone

/-- Database.prototype._isArray from the standalone source.  Its body
evaluates Object.prototype.toString.apply(it), but the parameter is named
testIt and no variable named it is in scope, so per JS semantics every
call throws a ReferenceError before inspecting the argument. -/
def isArray {α : Type} (testIt : α) : Except JsError Bool :=
  Except.error (JsError.referenceError "it")

/-- Reading an identifier that is declared in no enclosing scope throws a
ReferenceError in JS. -/
def jsReadUndeclared (name : String) : Except JsError Unit :=
  Except.error (JsError.referenceError name)

/-- Transaction body of Database.prototype.queries in the standalone
source.  For each query it resolves the SQL text and values (a raw string
keeps the values of the previous iteration, since the values variable is
only reassigned for object queries), then evaluates the condition
if (debug): the enclosing scopes declare only DEBUG, so this read of the
undeclared name debug throws a ReferenceError, failing the transaction
before any statement of the iteration is queued. -/
def queriesTransactionLoop : List QueryItem → List Value → Except JsError (List (String × List Value))
  | [], _ => Except.ok []
  | q :: rest, prevValues =>
      let sv := match q with
        | QueryItem.raw s => (s, prevValues)
        | QueryItem.query dq => (dq.sql, dq.values)
      do
        let _ ← jsReadUndeclared "debug"
        let restStmts ← queriesTransactionLoop rest sv.2
        Except.ok (sv :: restStmts)

/-- Outcome of Database.prototype.queries: the fail-fast _db_lost error
when _db is falsy, or a host transaction run recording the connection
closed flag, the statements that applied (none when the body threw, since
the host transaction is atomic), and the error surfaced on the error
channel, if any. -/
inductive QueriesDispatch where
  | dbLostError
  | transactionRun (connClosed : Bool) (executed : List (String × List Value)) (txnError : Option JsError)
deriving DecidableEq

/-- Database.prototype.queries from the standalone source: guard on _db,
then run the transaction whose body is queriesTransactionLoop (with the
values variable initialized to the empty array).  A body exception aborts
the transaction, applying no statement and surfacing the error through
the onError channel. -/
def queries (st : DbState) (qs : List QueryItem) : QueriesDispatch :=
  match st.db with
  | none => QueriesDispatch.dbLostError
  | some conn =>
      match queriesTransactionLoop qs [] with
      | Except.ok stmts => QueriesDispatch.transactionRun conn.closed stmts none
      | Except.error e => QueriesDispatch.transactionRun conn.closed [] (some e)

/-- Database.prototype.setSchema from the standalone source.  The first
statement evaluates this._isArray(schema), which throws a ReferenceError
for every input, so the remainder (building the structure batch of raw
strings and CREATE TABLE statements in plan order, collecting the inline
data, and dispatching the two phases through queries) is dead code; it is
still written out faithfully below the failing call. -/
def setSchema (schema : List SchemaItem) :
    Except JsError (List QueryItem × List (String × List Row)) := do
  let _ ← isArray schema
  let acc := schema.foldl (fun acc item =>
    match item with
    | SchemaItem.rawSql s => (acc.1 ++ [QueryItem.raw s], acc.2)
    | SchemaItem.table t =>
        let acc1 := match t.columns with
          | some cols => acc.1 ++ [QueryItem.raw (getCreateTable t.table cols none)]
          | none => acc.1
        let acc2 := match t.data with
          | some rows => acc.2 ++ [(t.table, rows)]
          | none => acc.2
        (acc1, acc2)) (([] : List QueryItem), ([] : List (String × List Row)))
  Except.ok acc

/-- Database.prototype.insertData from the standalone source.  Like
setSchema it calls this._isArray(data) first and therefore throws a
ReferenceError on every call; the dead remainder builds one getInsert
statement per row in plan order, then dispatches the batch through
queries. -/
def insertData (data : List (String × List Row)) : Except JsError (List QueryItem) := do
  let _ ← isArray data
  let dataQueries := data.foldl (fun acc td =>
    acc ++ td.2.map (fun row => QueryItem.query (getInsert td.1 row))) []
  Except.ok dataQueries

/-- Database.prototype.changeVersionWithSchema from the standalone
source.  The first statement evaluates this._isArray(schema), which
throws a ReferenceError for every input before the host is contacted.
The dead code after it is modelled for completeness: on host-reported
success the host invokes the callback built by _bind, but the standalone
_bind discards its bound arguments (newVersion and the user onSuccess),
so _versionChanged runs with both parameters undefined: the cached
version becomes undefined and the nested call of the undefined callback
throws a TypeError; on host-reported failure the cached version is left
unchanged and the failure goes to the onError channel. -/
def changeVersionWithSchema (st : DbState) (newVersion : String)
    (schema : List SchemaItem) (hostReportsSuccess : Bool) :
    Except JsError (DbState × Option JsError) := do
  let _ ← isArray schema
  if hostReportsSuccess then
    Except.ok ({ st with dbVersion := none },
      some (JsError.typeError "callback is not a function"))
  else
    Except.ok (st, none)

end Standalone

/-! ## Helper lemmas -/

theorem foldl_append_eq (f : α → String) :
    ∀ (l : List α) (init : String),
      l.foldl (fun s x => s ++ f x) init = init ++ concatAll (l.map f)
  | [], init => by simp [concatAll]
  | x :: rest, init => by
      simp only [List.foldl_cons, List.map_cons, concatAll]
      rw [foldl_append_eq f rest (init ++ f x), String.append_assoc]

theorem countQ_append (a b : String) : countQ (a ++ b) = countQ a + countQ b := by
  simp [countQ, String.data_append, List.count_append]

theorem countQ_jsJoin (sep : String) (h : countQ sep = 0) :
    ∀ l : List String, countQ (jsJoin sep l) = (l.map countQ).sum
  | [] => by show countQ "" = _ ; simp [countQ]
  | [s] => by show countQ s = ([s].map countQ).sum ; simp
  | s :: t :: rest => by
      have ih := countQ_jsJoin sep h (t :: rest)
      show countQ (s ++ sep ++ jsJoin sep (t :: rest)) = ((s :: t :: rest).map countQ).sum
      rw [countQ_append, countQ_append, h, ih]
      simp only [List.map_cons, List.sum_cons]
      omega

theorem concatAll_map_comma :
    ∀ (l : List String), l ≠ [] →
      concatAll (l.map (fun s => s ++ ", ")) = jsJoin ", " l ++ ", "
  | [s], _ => by
      show (s ++ ", ") ++ "" = s ++ ", "
      rw [String.append_empty]
  | s :: t :: rest, _ => by
      have ih := concatAll_map_comma (t :: rest) (by simp)
      show (s ++ ", ") ++ concatAll ((t :: rest).map (fun s => s ++ ", "))
          = (s ++ ", " ++ jsJoin ", " (t :: rest)) ++ ", "
      rw [ih, ← String.append_assoc]

theorem string_length_data (s : String) : s.length = s.data.length := rfl

theorem jsSubstr0_append_two (a t2 : String) (h : t2.length = 2) :
    jsSubstr0 (a ++ t2) (((a ++ t2).length : Int) - 2) = a := by
  have hlen : (a ++ t2).length = a.length + 2 := by rw [String.length_append, h]
  have htn : (((a ++ t2).length : Int) - 2).toNat = a.data.length := by
    rw [hlen, ← string_length_data]; omega
  apply String.ext
  simp only [jsSubstr0, htn, String.data_append]
  rw [List.take_left' rfl]

theorem lastChar_append (a b : String) (hb : b.data ≠ []) :
    lastChar (a ++ b) = lastChar b := by
  rw [lastChar, lastChar, String.data_append, List.getLast?_append]
  cases hx : b.data.getLast? with
  | none => exact absurd (List.getLast?_eq_none_iff.mp hx) hb
  | some c => rfl

theorem data_ne_nil_of_lastChar {b : String} {c : Char}
    (hb : lastChar b = some c) : b.data ≠ [] := by
  intro hnil
  rw [lastChar, hnil] at hb
  simp at hb

theorem lastChar_jsJoin (sep : String) (c : Char) :
    ∀ (l : List String), l ≠ [] → (∀ s ∈ l, lastChar s = some c) →
      lastChar (jsJoin sep l) = some c
  | [s], _, hall => by
      show lastChar s = some c
      exact hall s (by simp)
  | s :: t :: rest, _, hall => by
      have ih := lastChar_jsJoin sep c (t :: rest) (by simp)
        (fun x hx => hall x (List.mem_cons_of_mem s hx))
      have hne : (jsJoin sep (t :: rest)).data ≠ [] := data_ne_nil_of_lastChar ih
      have hne2 : (sep ++ jsJoin sep (t :: rest)).data ≠ [] := by
        simp only [String.data_append]
        intro hnil
        exact hne (List.append_eq_nil.mp hnil).2
      show lastChar (s ++ sep ++ jsJoin sep (t :: rest)) = some c
      rw [String.append_assoc, lastChar_append _ _ hne2, lastChar_append _ _ hne]
      exact ih

theorem lastChar_ne_of_append (a b : String) (c : Char)
    (hb : lastChar b = some c) (d : Char) (hd : d ≠ c) :
    lastChar (a ++ b) ≠ some d := by
  rw [lastChar_append a b (data_ne_nil_of_lastChar hb), hb]
  intro he
  exact hd (Option.some.inj he).symm

theorem sum_map_one_eq_length {α : Type} (l : List α) (f : α → Nat)
    (h : ∀ x ∈ l, f x = 1) : (l.map f).sum = l.length := by
  induction l with
  | nil => rfl
  | cons x rest ih =>
      simp only [List.map_cons, List.sum_cons, List.length_cons,
        h x (by simp), ih (fun y hy => h y (List.mem_cons_of_mem x hy))]
      omega

/-- Closed form of the getInsert SQL text for a non-empty row mapping. -/
theorem getInsert_sql_closed (t : String) (data : Row) (hne : data ≠ []) :
    (getInsert t data).sql =
      ("INSERT INTO " ++ t ++ " (" ++ jsJoin ", " (data.map (fun kv => kv.1)) ++ ")")
        ++ (" VALUES (" ++ jsJoin ", " (data.map (fun _ => "?")) ++ ")") := by
  have hmapne : data.map (fun kv : String × Value => kv.1) ≠ [] := by
    simpa using hne
  have hmapne2 : data.map (fun _ : String × Value => ("?" : String)) ≠ [] := by
    simpa using hne
  have h1 : (fun (s : String) (kv : String × Value) => s ++ kv.1 ++ ", ")
      = (fun s kv => s ++ (kv.1 ++ ", ")) := by
    funext s kv; rw [String.append_assoc]
  have h2 : (fun (s : String) (kv : String × Value) => s ++ "?" ++ ", ")
      = (fun s kv => s ++ ("?" ++ ", ")) := by
    funext s kv; rw [String.append_assoc]
  have hfold1 : data.foldl (fun s kv => s ++ kv.1 ++ ", ") ("INSERT INTO " ++ t ++ " (")
      = (("INSERT INTO " ++ t ++ " (") ++ jsJoin ", " (data.map (fun kv => kv.1))) ++ ", " := by
    rw [h1, foldl_append_eq]
    have : data.map (fun kv : String × Value => kv.1 ++ ", ")
        = (data.map (fun kv => kv.1)).map (fun s => s ++ ", ") := by
      rw [List.map_map]; rfl
    rw [this, concatAll_map_comma _ hmapne, ← String.append_assoc]
  have hfold2 : data.foldl (fun s _ => s ++ "?" ++ ", ") " VALUES ("
      = (" VALUES (" ++ jsJoin ", " (data.map (fun _ => "?"))) ++ ", " := by
    rw [h2, foldl_append_eq]
    have : data.map (fun _ : String × Value => ("?" : String) ++ ", ")
        = (data.map (fun _ => ("?" : String))).map (fun s => s ++ ", ") := by
      rw [List.map_map]; rfl
    rw [this, concatAll_map_comma _ hmapne2, ← String.append_assoc]
  show jsSubstr0 _ _ ++ ")" ++ (jsSubstr0 _ _ ++ ")") = _
  rw [hfold1, hfold2, jsSubstr0_append_two _ ", " rfl, jsSubstr0_append_two _ ", " rfl]

/-- Values array of getInsert: the mapping values in iteration order. -/
theorem getInsert_values (t : String) (data : Row) :
    (getInsert t data).values = data.map (fun kv => kv.2) := rfl

/-- The getInsert output for an empty row mapping: a malformed statement
with dangling parentheses and no values, returned without any error. -/
theorem getInsert_empty (t : String) :
    getInsert t [] = { sql := "INSERT INTO " ++ t ++ ") VALUES)", values := [] } := by
  have e2 : (" VALUES (" : String) = " VALUES" ++ " (" := rfl
  show DatabaseQuery.mk (jsSubstr0 _ _ ++ ")" ++ (jsSubstr0 _ _ ++ ")")) [] = _
  rw [e2]
  simp only [List.foldl_nil]
  rw [jsSubstr0_append_two _ " (" rfl, jsSubstr0_append_two _ " (" rfl]
  rw [String.append_assoc ("INSERT INTO " ++ t) ")" (" VALUES" ++ ")")]
  rfl

theorem sum_map_zero {α : Type} (l : List α) (f : α → Nat)
    (h : ∀ x ∈ l, f x = 0) : (l.map f).sum = 0 := by
  induction l with
  | nil => rfl
  | cons x rest ih =>
      simp only [List.map_cons, List.sum_cons, h x (by simp),
        ih (fun y hy => h y (List.mem_cons_of_mem x hy))]

theorem countQ_jsJoin_zero (sep : String) (hsep : countQ sep = 0) (l : List String)
    (h : ∀ s ∈ l, countQ s = 0) : countQ (jsJoin sep l) = 0 := by
  rw [countQ_jsJoin sep hsep]
  exact sum_map_zero l countQ h

theorem countQ_jsJoin_pieces (sep : String) (hsep : countQ sep = 0) (l : Row)
    (h : ∀ kv ∈ l, countQ kv.1 = 0) :
    countQ (jsJoin sep (l.map (fun kv => kv.1 ++ " = ?"))) = l.length := by
  rw [countQ_jsJoin sep hsep, List.map_map]
  exact sum_map_one_eq_length l _ (fun kv hkv => by
    show countQ (kv.1 ++ " = ?") = 1
    rw [countQ_append, h kv hkv]
    decide)

theorem countQ_jsJoin_qmarks (data : Row) :
    countQ (jsJoin ", " (data.map (fun _ => "?"))) = data.length := by
  rw [countQ_jsJoin ", " rfl, List.map_map]
  exact sum_map_one_eq_length data _ (fun kv _ => rfl)

theorem countQ_getInsert (t : String) (data : Row) (ht : countQ t = 0)
    (hdata : ∀ kv ∈ data, countQ kv.1 = 0) :
    countQ (getInsert t data).sql = data.length := by
  rcases data with _ | ⟨kv, rest⟩
  · rw [getInsert_empty]
    show countQ (("INSERT INTO " ++ t) ++ ") VALUES)") = 0
    rw [countQ_append, countQ_append, ht]
    decide
  · have hkeys : ∀ s ∈ (kv :: rest).map (fun kv : String × Value => kv.1), countQ s = 0 := by
      intro s hs
      rcases List.mem_map.mp hs with ⟨x, hx, hxe⟩
      exact hxe ▸ hdata x hx
    rw [getInsert_sql_closed t (kv :: rest) (by simp)]
    simp only [countQ_append]
    rw [ht, countQ_jsJoin_zero ", " rfl _ hkeys, countQ_jsJoin_qmarks]
    show 0 + 0 + 0 + 0 + 0 + (0 + (kv :: rest).length + 0) = (kv :: rest).length
    omega

theorem countQ_getUpdate (t : String) (data whereArg : Row) (ht : countQ t = 0)
    (hdata : ∀ kv ∈ data, countQ kv.1 = 0)
    (hwhere : ∀ kv ∈ whereArg, countQ kv.1 = 0) :
    countQ (getUpdate t data whereArg).sql = data.length + whereArg.length := by
  show countQ (("UPDATE " ++ t ++ " SET "
      ++ jsJoin ", " (data.map (fun kv => kv.1 ++ " = ?")) ++ " WHERE ")
      ++ jsJoin " AND " (whereArg.map (fun kv => kv.1 ++ " = ?"))) = _
  simp only [countQ_append]
  rw [ht, countQ_jsJoin_pieces ", " rfl data hdata,
    countQ_jsJoin_pieces " AND " rfl whereArg hwhere]
  show 0 + 0 + 0 + data.length + 0 + whereArg.length = _
  omega

theorem countQ_getDelete (t : String) (whereArg : Row) (ht : countQ t = 0)
    (hwhere : ∀ kv ∈ whereArg, countQ kv.1 = 0) :
    countQ (getDelete t whereArg).sql = whereArg.length := by
  show countQ (("DELETE FROM " ++ t ++ " WHERE ")
      ++ jsJoin " AND " (whereArg.map (fun kv => kv.1 ++ " = ?"))) = _
  simp only [countQ_append]
  rw [ht, countQ_jsJoin_pieces " AND " rfl whereArg hwhere]
  show 0 + 0 + 0 + whereArg.length = _
  omega

theorem data_append_ne_nil (a b : String) (hb : b.data ≠ []) : (a ++ b).data ≠ [] := by
  rw [String.data_append]
  intro h
  exact hb (List.append_eq_nil.mp h).2

theorem lastChar_getInsert (t : String) (data : Row) :
    lastChar (getInsert t data).sql = some ')' := by
  show lastChar (_ ++ (jsSubstr0 _ _ ++ ")")) = some ')'
  rw [lastChar_append _ _ (data_append_ne_nil _ ")" (by decide)),
    lastChar_append _ _ (by decide)]
  rfl

theorem lastChar_piece (kv : String × Value) :
    lastChar (kv.1 ++ " = ?") = some '?' := by
  rw [lastChar_append _ _ (by decide)]
  rfl

theorem lastChar_getUpdate (t : String) (data whereArg : Row) :
    lastChar (getUpdate t data whereArg).sql ≠ some ';' := by
  show lastChar (("UPDATE " ++ t ++ " SET "
      ++ jsJoin ", " (data.map (fun kv => kv.1 ++ " = ?")) ++ " WHERE ")
      ++ jsJoin " AND " (whereArg.map (fun kv => kv.1 ++ " = ?"))) ≠ some ';'
  rcases whereArg with _ | ⟨kv, rest⟩
  · show lastChar (_ ++ "") ≠ some ';'
    rw [String.append_empty]
    exact lastChar_ne_of_append _ " WHERE " ' ' rfl ';' (by decide)
  · have hj := lastChar_jsJoin " AND " '?'
      (((kv :: rest).map (fun kv => kv.1 ++ " = ?"))) (by simp)
      (fun s hs => by
        rcases List.mem_map.mp hs with ⟨x, hx, hxe⟩
        exact hxe ▸ lastChar_piece x)
    exact lastChar_ne_of_append _ _ '?' hj ';' (by decide)

theorem lastChar_getDelete (t : String) (whereArg : Row) :
    lastChar (getDelete t whereArg).sql ≠ some ';' := by
  show lastChar (("DELETE FROM " ++ t ++ " WHERE ")
      ++ jsJoin " AND " (whereArg.map (fun kv => kv.1 ++ " = ?"))) ≠ some ';'
  rcases whereArg with _ | ⟨kv, rest⟩
  · show lastChar (_ ++ "") ≠ some ';'
    rw [String.append_empty]
    exact lastChar_ne_of_append _ " WHERE " ' ' rfl ';' (by decide)
  · have hj := lastChar_jsJoin " AND " '?'
      (((kv :: rest).map (fun kv => kv.1 ++ " = ?"))) (by simp)
      (fun s hs => by
        rcases List.mem_map.mp hs with ⟨x, hx, hxe⟩
        exact hxe ▸ lastChar_piece x)
    exact lastChar_ne_of_append _ _ '?' hj ';' (by decide)

theorem lastChar_getSelect_where (t : String) (cols : JsColumns) (w : Row)
    (hw : w ≠ []) :
    lastChar (getSelect t cols (some w)).sql = some '?' := by
  show lastChar (_ ++ " WHERE " ++ jsJoin " AND " (w.map (fun kv => kv.1 ++ " = ?")))
      = some '?'
  have hj := lastChar_jsJoin " AND " '?' (w.map (fun kv => kv.1 ++ " = ?"))
    (by simpa using hw)
    (fun s hs => by
      rcases List.mem_map.mp hs with ⟨x, hx, hxe⟩
      exact hxe ▸ lastChar_piece x)
  rw [lastChar_append _ _ (data_ne_nil_of_lastChar hj)]
  exact hj

/-- After the query normalization, a statement whose trimmed text is
non-empty always ends with a semicolon. -/
theorem lastChar_queryNormalizeSql (s : String) (h : jsTrim s ≠ "") :
    lastChar (queryNormalizeSql s) = some ';' := by
  show lastChar (if jsLastIndexOf (jsTrim s) ';' ≠ ((jsTrim s).length : Int) - 1
      then jsTrim s ++ ";" else jsTrim s) = some ';'
  have hdata : (jsTrim s).data ≠ [] := by
    intro hnil
    exact h (String.ext hnil)
  by_cases hc : jsLastIndexOf (jsTrim s) ';' = ((jsTrim s).length : Int) - 1
  · rw [if_neg (by simpa using hc)]
    rcases hrev : (jsTrim s).data.reverse with _ | ⟨c, rest⟩
    · exact absurd (by simpa using congrArg List.reverse hrev) hdata
    · have hlen : (jsTrim s).data.length = rest.length + 1 := by
        have := congrArg List.length hrev
        simpa using this
      rw [jsLastIndexOf, hrev, List.indexOf_cons] at hc
      by_cases hcq : c = ';'
      · rw [lastChar, ← List.head?_reverse, hrev, hcq]
        rfl
      · rw [show (c == ';') = false from beq_eq_false_iff_ne.mpr hcq] at hc
        simp only [cond_false, string_length_data, hlen] at hc
        split at hc <;> omega
  · rw [if_pos hc]
    rw [lastChar_append _ _ (by decide)]
    rfl

/-! ## Claim theorems -/

/-- Claim C1, counterexample: as stated the claim quantifies over every
table name, but a question mark inside the table name is copied verbatim
into the SQL text, so the textual placeholder count exceeds the length of
the values array. -/
theorem claim_C1_counterexample :
    countQ (getInsert "a?" [("b", Value.int 1)]).sql = 2
    ∧ (getInsert "a?" [("b", Value.int 1)]).values.length = 1 := by
  decide

/-- Claim C1 (amended): provided the table name and the mapping keys
contain no question-mark character, the statements returned by getInsert,
getUpdate and getDelete contain exactly as many question-mark placeholders
in their SQL text as the length of their returned values array; for
getInsert this count equals the number of keys of the row mapping, and
the parameter values appear in the iteration order of the mappings (data
values before predicate values for getUpdate). -/
theorem claim_C1 (t : String) (data whereArg : Row)
    (ht : countQ t = 0)
    (hdata : ∀ kv ∈ data, countQ kv.1 = 0)
    (hwhere : ∀ kv ∈ whereArg, countQ kv.1 = 0) :
    countQ (getInsert t data).sql = (getInsert t data).values.length
    ∧ countQ (getInsert t data).sql = data.length
    ∧ (getInsert t data).values = data.map (fun kv => kv.2)
    ∧ countQ (getUpdate t data whereArg).sql = (getUpdate t data whereArg).values.length
    ∧ (getUpdate t data whereArg).values
        = data.map (fun kv => kv.2) ++ whereArg.map (fun kv => kv.2)
    ∧ countQ (getDelete t whereArg).sql = (getDelete t whereArg).values.length
    ∧ (getDelete t whereArg).values = whereArg.map (fun kv => kv.2) := by
  refine ⟨?_, countQ_getInsert t data ht hdata, rfl, ?_, rfl, ?_, rfl⟩
  · rw [countQ_getInsert t data ht hdata, getInsert_values]
    simp
  · rw [countQ_getUpdate t data whereArg ht hdata hwhere]
    show _ = (data.map _ ++ whereArg.map _).length
    simp
  · rw [countQ_getDelete t whereArg ht hwhere]
    show _ = (whereArg.map _).length
    simp

/-- Witness for claim C1 at concrete inputs. -/
theorem claim_C1_witness :
    (countQ "t" = 0
      ∧ (∀ kv ∈ ([("a", Value.int 1), ("b", Value.str "x")] : Row), countQ kv.1 = 0)
      ∧ (∀ kv ∈ ([("id", Value.int 7)] : Row), countQ kv.1 = 0))
    ∧ (countQ (getInsert "t" [("a", Value.int 1), ("b", Value.str "x")]).sql
          = (getInsert "t" [("a", Value.int 1), ("b", Value.str "x")]).values.length
        ∧ countQ (getInsert "t" [("a", Value.int 1), ("b", Value.str "x")]).sql
          = ([("a", Value.int 1), ("b", Value.str "x")] : Row).length
        ∧ (getInsert "t" [("a", Value.int 1), ("b", Value.str "x")]).values
          = ([("a", Value.int 1), ("b", Value.str "x")] : Row).map (fun kv => kv.2)
        ∧ countQ (getUpdate "t" [("a", Value.int 1), ("b", Value.str "x")] [("id", Value.int 7)]).sql
          = (getUpdate "t" [("a", Value.int 1), ("b", Value.str "x")] [("id", Value.int 7)]).values.length
        ∧ (getUpdate "t" [("a", Value.int 1), ("b", Value.str "x")] [("id", Value.int 7)]).values
          = ([("a", Value.int 1), ("b", Value.str "x")] : Row).map (fun kv => kv.2)
              ++ ([("id", Value.int 7)] : Row).map (fun kv => kv.2)
        ∧ countQ (getDelete "t" [("id", Value.int 7)]).sql
          = (getDelete "t" [("id", Value.int 7)]).values.length
        ∧ (getDelete "t" [("id", Value.int 7)]).values
          = ([("id", Value.int 7)] : Row).map (fun kv => kv.2)) :=
  ⟨⟨by decide, by decide, by decide⟩,
    claim_C1 "t" [("a", Value.int 1), ("b", Value.str "x")] [("id", Value.int 7)]
      (by decide) (by decide) (by decide)⟩

/-- Claim C3, counterexample: changeVersion with a host-reported failure
still replaces the cached version, contradicting the claim that it is
left unchanged on failure. -/
theorem claim_C3_counterexample :
    getVersion (changeVersion { db := some { closed := false }, dbVersion := some "1" } "2" false)
      ≠ getVersion { db := some { closed := false }, dbVersion := some "1" } := by
  decide

/-- Claim C3 (amended): changeVersion sets the cached version (the value
returned by getVersion) to the new version unconditionally and
immediately, regardless of the outcome the host later reports; the host
outcome influences only the debug logging. -/
theorem claim_C3 (st : DbState) (newVersion : String) (hostReportsSuccess : Bool) :
    getVersion (changeVersion st newVersion hostReportsSuccess) = some newVersion
    ∧ changeVersion st newVersion true = changeVersion st newVersion false :=
  ⟨rfl, rfl⟩

/-- Claim C4, counterexample: the builders called with empty mappings do
not fail with any error; each returns a malformed statement object. -/
theorem claim_C4_counterexample :
    getInsert "t" [] = { sql := "INSERT INTO t) VALUES)", values := [] }
    ∧ getUpdate "t" [] [("id", Value.int 1)]
        = { sql := "UPDATE t SET  WHERE id = ?", values := [Value.int 1] }
    ∧ getDelete "t" [] = { sql := "DELETE FROM t WHERE ", values := [] } := by
  decide

/-- Claim C4 (amended): getInsert with an empty row, getUpdate with an
empty row or empty predicate, and getDelete with an empty predicate do
not fail at all: there is no InvalidArgument check in the code, and each
call synchronously returns a malformed statement (dangling parentheses,
empty SET list, or empty WHERE clause) without contacting the host. -/
theorem claim_C4 (t : String) (d w : Row) :
    (getInsert t []).sql = "INSERT INTO " ++ t ++ ") VALUES)"
    ∧ (getInsert t []).values = []
    ∧ (getUpdate t [] w).sql
        = "UPDATE " ++ t ++ " SET " ++ " WHERE "
            ++ jsJoin " AND " (w.map (fun kv => kv.1 ++ " = ?"))
    ∧ (getUpdate t [] w).values = w.map (fun kv => kv.2)
    ∧ (getUpdate t d []).sql
        = "UPDATE " ++ t ++ " SET " ++ jsJoin ", " (d.map (fun kv => kv.1 ++ " = ?"))
            ++ " WHERE "
    ∧ (getUpdate t d []).values = d.map (fun kv => kv.2)
    ∧ (getDelete t []).sql = "DELETE FROM " ++ t ++ " WHERE "
    ∧ (getDelete t []).values = [] := by
  refine ⟨congrArg DatabaseQuery.sql (getInsert_empty t), rfl, ?_, rfl, ?_, ?_, ?_, rfl⟩
  · show ("UPDATE " ++ t ++ " SET " ++ jsJoin ", " [] ++ " WHERE ")
        ++ jsJoin " AND " (w.map (fun kv => kv.1 ++ " = ?")) = _
    show ("UPDATE " ++ t ++ " SET " ++ "" ++ " WHERE ")
        ++ jsJoin " AND " (w.map (fun kv => kv.1 ++ " = ?")) = _
    rw [String.append_empty]
  · show ("UPDATE " ++ t ++ " SET " ++ jsJoin ", " (d.map (fun kv => kv.1 ++ " = ?"))
        ++ " WHERE ") ++ jsJoin " AND " [] = _
    show ("UPDATE " ++ t ++ " SET " ++ jsJoin ", " (d.map (fun kv => kv.1 ++ " = ?"))
        ++ " WHERE ") ++ "" = _
    rw [String.append_empty]
  · show (getUpdate t d []).values = d.map (fun kv => kv.2)
    show d.map (fun kv : String × Value => kv.2) ++ List.map (fun kv : String × Value => kv.2) []
        = d.map (fun kv => kv.2)
    simp
  · show ("DELETE FROM " ++ t ++ " WHERE ") ++ jsJoin " AND " [] = _
    show ("DELETE FROM " ++ t ++ " WHERE ") ++ "" = _
    rw [String.append_empty]

/-- Claim C6, counterexample: getSelect with an empty columns array, or
with the columns argument absent, renders an empty column list rather
than the star. -/
theorem claim_C6_counterexample :
    (getSelect "t" (JsColumns.arr []) (some [("id", Value.int 1)])).sql
        = "SELECT  FROM t WHERE id = ?"
    ∧ (getSelect "t" JsColumns.undef (some [("id", Value.int 1)])).sql
        = "SELECT  FROM t WHERE id = ?"
    ∧ ("SELECT  FROM t WHERE id = ?" : String) ≠ "SELECT * FROM t WHERE id = ?" := by
  decide

/-- Claim C6 (amended): getSelect renders the star only for a null (or
empty-string) columns argument; an absent columns argument or an empty
array leaves the column list empty, rendering SELECT with two spaces
before FROM; a column-name array is rendered comma-joined in the given
order. -/
theorem claim_C6 (t : String) (w : Row) (l : List String) :
    (getSelect t JsColumns.nullv (some w)).sql
        = "SELECT " ++ "*" ++ " FROM " ++ t ++ " WHERE "
            ++ jsJoin " AND " (w.map (fun kv => kv.1 ++ " = ?"))
    ∧ (getSelect t (JsColumns.str "") none).sql = "SELECT " ++ "*" ++ " FROM " ++ t
    ∧ (getSelect t JsColumns.undef (some w)).sql
        = "SELECT " ++ "" ++ " FROM " ++ t ++ " WHERE "
            ++ jsJoin " AND " (w.map (fun kv => kv.1 ++ " = ?"))
    ∧ (getSelect t (JsColumns.arr []) (some w)).sql
        = "SELECT " ++ "" ++ " FROM " ++ t ++ " WHERE "
            ++ jsJoin " AND " (w.map (fun kv => kv.1 ++ " = ?"))
    ∧ (getSelect t (JsColumns.arr l) (some w)).sql
        = "SELECT " ++ jsJoin ", " l ++ " FROM " ++ t ++ " WHERE "
            ++ jsJoin " AND " (w.map (fun kv => kv.1 ++ " = ?"))
    ∧ (getSelect t (JsColumns.arr l) (some w)).values = w.map (fun kv => kv.2) :=
  ⟨rfl, rfl, rfl, rfl, rfl, rfl⟩

/-- Claim C8: getCreateTable with the ifNotExists argument defaulted
renders CREATE TABLE IF NOT EXISTS with the columns in given order, each
column as name, type, and its constraints joined in given order verbatim;
in particular the single-column example from the claim renders exactly as
stated. -/
theorem claim_C8 :
    getCreateTable "t" [{ column := "id", type := "INTEGER", constraints := some ["PRIMARY KEY"] }] none
        = "CREATE TABLE IF NOT EXISTS t (id INTEGER PRIMARY KEY)"
    ∧ (∀ (t : String) (cols : List ColumnDef),
        getCreateTable t cols none
          = "CREATE TABLE IF NOT EXISTS " ++ t ++ " ("
              ++ jsJoin ", " (cols.map colDefString) ++ ")")
    ∧ (∀ name ty c1 c2 : String,
        colDefString { column := name, type := ty, constraints := some [c1, c2] }
          = name ++ " " ++ ty ++ " " ++ (c1 ++ " " ++ c2)) := by
  refine ⟨by decide, ?_, fun name ty c1 c2 => rfl⟩
  intro t cols
  show ("CREATE TABLE " ++ "IF NOT EXISTS ") ++ t ++ " ("
      ++ jsJoin ", " (cols.map colDefString) ++ ")" = _
  rw [show ("CREATE TABLE " ++ "IF NOT EXISTS " : String)
      = "CREATE TABLE IF NOT EXISTS " from rfl]

/-- Claim C7, counterexample: after close() the _db reference is still
set, so a subsequent query() passes the guard and is dispatched to the
(closed) host connection instead of failing fast. -/
theorem claim_C7_counterexample :
    close { db := some { closed := false }, dbVersion := some "1" }
        = Except.ok { db := some { closed := true }, dbVersion := some "1" }
    ∧ query { db := some { closed := true }, dbVersion := some "1" } "SELECT * FROM t" []
        = QueryDispatch.hostTransaction true "SELECT * FROM t;" []
    ∧ QueryDispatch.hostTransaction true ("SELECT * FROM t;") ([] : List Value)
        ≠ QueryDispatch.dbLostError :=
  ⟨rfl, by decide, by decide⟩

/-- Claim C7 (amended): close() only closes the host-side connection and
leaves the _db reference set, so a closed handle does not fail fast with
ConnectionUnavailable: a subsequent query() is dispatched to the closed
host connection, a subsequent queries() likewise passes the _db guard
and runs a host transaction on the closed connection, and setSchema,
insertData and changeVersionWithSchema throw ReferenceError in _isArray
before any guard or host contact; the _db_lost fail-fast path fires only
when _db itself is unset, which close() never causes. -/
theorem claim_C7 (st : DbState) (conn : HostConn) (h : st.db = some conn)
    (sql : String) (values : List Value) (qs : List QueryItem)
    (schema : List SchemaItem) (d : List (String × List Row))
    (v : String) (b : Bool) :
    close st = Except.ok { st with db := some { closed := true } }
    ∧ query { st with db := some { closed := true } } sql values
        = QueryDispatch.hostTransaction true (queryNormalizeSql sql) values
    ∧ (∃ executed txnError,
        Standalone.queries { st with db := some { closed := true } } qs
          = Standalone.QueriesDispatch.transactionRun true executed txnError)
    ∧ Standalone.setSchema schema = Except.error (JsError.referenceError "it")
    ∧ Standalone.insertData d = Except.error (JsError.referenceError "it")
    ∧ Standalone.changeVersionWithSchema { st with db := some { closed := true } } v schema b
        = Except.error (JsError.referenceError "it")
    ∧ (∀ st3 : DbState, st3.db ≠ none →
        query st3 sql values ≠ QueryDispatch.dbLostError)
    ∧ (∀ (st3 : DbState) (qs2 : List QueryItem), st3.db ≠ none →
        Standalone.queries st3 qs2 ≠ Standalone.QueriesDispatch.dbLostError) := by
  refine ⟨?_, rfl, ?_, rfl, rfl, rfl, ?_, ?_⟩
  · simp only [close, h]
  · rcases hl : Standalone.queriesTransactionLoop qs [] with e | stmts
    · exact ⟨[], some e, by simp [Standalone.queries, hl]⟩
    · exact ⟨stmts, none, by simp [Standalone.queries, hl]⟩
  · intro st3 h3 he
    rcases hd : st3.db with _ | c
    · exact h3 hd
    · simp [query, hd] at he
  · intro st3 qs2 h3 he
    rcases hd : st3.db with _ | c
    · exact h3 hd
    · rcases hl : Standalone.queriesTransactionLoop qs2 [] with e | stmts
      · simp [Standalone.queries, hd, hl] at he
      · simp [Standalone.queries, hd, hl] at he

/-- Witness for claim C7 at a concrete opened state. -/
theorem claim_C7_witness :
    (({ db := some { closed := false }, dbVersion := some "1" } : DbState).db
        = some { closed := false })
    ∧ (close { db := some { closed := false }, dbVersion := some "1" }
          = Except.ok { db := some { closed := true }, dbVersion := some "1" }
        ∧ query { db := some { closed := true }, dbVersion := some "1" } "SELECT 1" []
          = QueryDispatch.hostTransaction true (queryNormalizeSql "SELECT 1") []
        ∧ (∃ executed txnError,
            Standalone.queries { db := some { closed := true }, dbVersion := some "1" }
                [QueryItem.raw "DELETE FROM t"]
              = Standalone.QueriesDispatch.transactionRun true executed txnError)
        ∧ Standalone.setSchema
            [SchemaItem.table
              { table := "u",
                columns := some [{ column := "n", type := "TEXT", constraints := none }],
                data := none }]
          = Except.error (JsError.referenceError "it")
        ∧ Standalone.insertData [("u", [[("n", Value.str "y")]])]
          = Except.error (JsError.referenceError "it")
        ∧ Standalone.changeVersionWithSchema
            { db := some { closed := true }, dbVersion := some "1" } "9"
            [SchemaItem.table
              { table := "u",
                columns := some [{ column := "n", type := "TEXT", constraints := none }],
                data := none }] false
          = Except.error (JsError.referenceError "it")
        ∧ (∀ st3 : DbState, st3.db ≠ none →
            query st3 "SELECT 1" [] ≠ QueryDispatch.dbLostError)
        ∧ (∀ (st3 : DbState) (qs2 : List QueryItem), st3.db ≠ none →
            Standalone.queries st3 qs2 ≠ Standalone.QueriesDispatch.dbLostError)) :=
  ⟨rfl, claim_C7 { db := some { closed := false }, dbVersion := some "1" }
      { closed := false } rfl "SELECT 1" [] [QueryItem.raw "DELETE FROM t"]
      [SchemaItem.table
        { table := "u",
          columns := some [{ column := "n", type := "TEXT", constraints := none }],
          data := none }]
      [("u", [[("n", Value.str "y")]])] "9" false⟩

/-- Claim C9, counterexample: the builders do not terminate their SQL
text with a semicolon; the concrete insert statement ends with a closing
parenthesis. -/
theorem claim_C9_counterexample :
    (getInsert "t" [("a", Value.int 1)]).sql = "INSERT INTO t (a) VALUES (?)"
    ∧ lastChar (getInsert "t" [("a", Value.int 1)]).sql ≠ some ';' := by
  decide

/-- Claim C9 (amended): no builder output ends with a semicolon: getInsert
always ends with a closing parenthesis, getUpdate and getDelete never end
with a semicolon (they end with the WHERE rendering), and getSelect with a
non-empty predicate ends with a placeholder; the terminating semicolon is
instead appended by the query() normalization, whose output always ends
with a semicolon whenever the trimmed SQL is non-empty. -/
theorem claim_C9 (t : String) (data whereArg : Row) (cols : JsColumns) (w : Row)
    (hw : w ≠ []) (s : String) (hs : jsTrim s ≠ "") :
    lastChar (getInsert t data).sql = some ')'
    ∧ lastChar (getUpdate t data whereArg).sql ≠ some ';'
    ∧ lastChar (getDelete t whereArg).sql ≠ some ';'
    ∧ lastChar (getSelect t cols (some w)).sql = some '?'
    ∧ lastChar (queryNormalizeSql s) = some ';' :=
  ⟨lastChar_getInsert t data, lastChar_getUpdate t data whereArg,
    lastChar_getDelete t whereArg, lastChar_getSelect_where t cols w hw,
    lastChar_queryNormalizeSql s hs⟩

/-- Witness for claim C9 at concrete inputs. -/
theorem claim_C9_witness :
    (([("id", Value.int 1)] : Row) ≠ [] ∧ jsTrim "SELECT * FROM t" ≠ "")
    ∧ (lastChar (getInsert "t" [("a", Value.int 1)]).sql = some ')'
        ∧ lastChar (getUpdate "t" [("a", Value.int 1)] [("id", Value.int 1)]).sql ≠ some ';'
        ∧ lastChar (getDelete "t" [("id", Value.int 1)]).sql ≠ some ';'
        ∧ lastChar (getSelect "t" JsColumns.nullv (some [("id", Value.int 1)])).sql = some '?'
        ∧ lastChar (queryNormalizeSql "SELECT * FROM t") = some ';') :=
  ⟨⟨by decide, by decide⟩,
    claim_C9 "t" [("a", Value.int 1)] [("id", Value.int 1)] JsColumns.nullv
      [("id", Value.int 1)] (by decide) "SELECT * FROM t" (by decide)⟩

/-- Claim C2, code bug evaluation: in the standalone variant setSchema
throws a ReferenceError inside _isArray on every call, before building
any statement or contacting the host, so neither the structure phase nor
the data phase of the claimed two-phase execution can ever run. -/
theorem claim_C2_bug_eval :
    Standalone.setSchema
        [SchemaItem.table
          { table := "t",
            columns := some [{ column := "id", type := "INTEGER", constraints := none }],
            data := some [[("id", Value.int 1)]] }]
      = Except.error (JsError.referenceError "it") := rfl

/-- Claim C5, code bug evaluation: in the standalone variant
changeVersionWithSchema throws a ReferenceError inside _isArray on every
call, before the host version-change primitive is ever invoked, so the
cached version can never be updated through this path. -/
theorem claim_C5_bug_eval :
    Standalone.changeVersionWithSchema
        { db := some { closed := false }, dbVersion := some "1" } "2"
        [SchemaItem.table
          { table := "t",
            columns := some [{ column := "id", type := "INTEGER", constraints := none }],
            data := none }] true
      = Except.error (JsError.referenceError "it") := rfl

/-- Claim C10, counterexample: an empty batch submitted through queries
does not error: the transaction body never enters the loop, so the read
of the undeclared name debug never happens and the empty transaction
completes without an error. -/
theorem claim_C10_counterexample :
    Standalone.queries { db := some { closed := false }, dbVersion := some "1" } []
      = Standalone.QueriesDispatch.transactionRun false [] none := rfl

/-- Claim C10 (amended): in the standalone variant _isArray reads the
undeclared name it and throws a ReferenceError for every input, making
setSchema and insertData throw on every call, and the transaction body of
queries reads the undeclared name debug, so every non-empty batch
submitted through queries errors during the transaction regardless of the
debug flag (an empty batch never reaches the read and succeeds). -/
theorem claim_C10 (st : DbState) (conn : HostConn) (hdb : st.db = some conn)
    (qs : List QueryItem) (hqs : qs ≠ [])
    (schema : List SchemaItem) (d : List (String × List Row)) :
    (∀ (α : Type) (x : α), Standalone.isArray x = Except.error (JsError.referenceError "it"))
    ∧ Standalone.setSchema schema = Except.error (JsError.referenceError "it")
    ∧ Standalone.insertData d = Except.error (JsError.referenceError "it")
    ∧ Standalone.queries st qs
        = Standalone.QueriesDispatch.transactionRun conn.closed []
            (some (JsError.referenceError "debug")) := by
  refine ⟨fun α x => rfl, rfl, rfl, ?_⟩
  rcases qs with _ | ⟨q, rest⟩
  · exact absurd rfl hqs
  · simp only [Standalone.queries, hdb]
    rfl

/-- Witness for claim C10 at concrete inputs. -/
theorem claim_C10_witness :
    (({ db := some { closed := false }, dbVersion := some "1" } : DbState).db
        = some { closed := false }
      ∧ ([QueryItem.raw "CREATE TABLE t (id INTEGER)"] : List QueryItem) ≠ [])
    ∧ ((∀ (α : Type) (x : α),
          Standalone.isArray x = Except.error (JsError.referenceError "it"))
        ∧ Standalone.setSchema [SchemaItem.rawSql "ALTER TABLE t ADD COLUMN c TEXT"]
          = Except.error (JsError.referenceError "it")
        ∧ Standalone.insertData [("t", [[("id", Value.int 2)]])]
          = Except.error (JsError.referenceError "it")
        ∧ Standalone.queries { db := some { closed := false }, dbVersion := some "1" }
            [QueryItem.raw "CREATE TABLE t (id INTEGER)"]
          = Standalone.QueriesDispatch.transactionRun false []
              (some (JsError.referenceError "debug"))) :=
  ⟨⟨rfl, by decide⟩,
    claim_C10 { db := some { closed := false }, dbVersion := some "1" }
      { closed := false } rfl [QueryItem.raw "CREATE TABLE t (id INTEGER)"] (by decide)
      [SchemaItem.rawSql "ALTER TABLE t ADD COLUMN c TEXT"]
      [("t", [[("id", Value.int 2)]])]⟩

end DatabaseWebos
